import Mathlib

/-!
Shallow embedding of the Pensar CI client library (`src/lib/ci.ts`) and
verification of its specification.

Modelling conventions:
- TypeScript `undefined`/`null` optional values become `Option`.
- JavaScript truthiness on `string | undefined` and `number | undefined`
  is modelled explicitly (`jsTruthyStr`, `jsTruthyInt`).
- Console warnings are returned as an explicit list of message strings.
- Thrown exceptions become `Except String` results carrying the message.
- The network is abstracted as an explicit oracle: `dispatchScan` takes a
  function from the request it would issue to the HTTP response, and the
  polling loop consumes the list of successfully parsed status records the
  server would return, in order.  Each function also reports the requests
  it issued, so "no network call happens" is a provable statement.
-/

namespace PensarCI

/-- Severity levels in order from most to least severe
(`SEVERITY_LEVELS` in `ci.ts`). -/
inductive SeverityLevel
  | critical
  | high
  | medium
  | low
  | info
deriving DecidableEq, Repr, Fintype

/-- The constant `SEVERITY_LEVELS = ['critical','high','medium','low','info']`. -/
def SEVERITY_LEVELS : List SeverityLevel :=
  [.critical, .high, .medium, .low, .info]

/-- The wire name of each severity level. -/
def SeverityLevel.name : SeverityLevel → String
  | .critical => "critical"
  | .high => "high"
  | .medium => "medium"
  | .low => "low"
  | .info => "info"

/-- `IssueCountsBySeverity`: per-severity issue counts, each key defaulting
to 0 when absent from the wire payload (zod `.default(0)`). -/
structure IssueCountsBySeverity where
  critical : Nat := 0
  high : Nat := 0
  medium : Nat := 0
  low : Nat := 0
  info : Nat := 0
deriving DecidableEq, Repr

/-- Field lookup `issueCountsBySeverity[severity]`. -/
def IssueCountsBySeverity.get (b : IssueCountsBySeverity) : SeverityLevel → Nat
  | .critical => b.critical
  | .high => b.high
  | .medium => b.medium
  | .low => b.low
  | .info => b.info

/-- `SEVERITY_LEVELS.indexOf(threshold)` from `ci.ts`; every level occurs in
the list, so the index is its position in the fixed ordering. -/
def severityIndex (threshold : SeverityLevel) : Nat :=
  SEVERITY_LEVELS.indexOf threshold

/-- `getIssueCountAtOrAboveThreshold` from `ci.ts`: returns 0 for a missing
breakdown, otherwise sums `issueCountsBySeverity[SEVERITY_LEVELS[i]]` for
`i = 0 .. thresholdIndex` (the loop `for i = 0; i <= thresholdIndex; i++`). -/
def getIssueCountAtOrAboveThreshold
    (issueCountsBySeverity : Option IssueCountsBySeverity)
    (threshold : SeverityLevel) : Nat :=
  match issueCountsBySeverity with
  | none => 0
  | some counts =>
    let thresholdIndex := severityIndex threshold
    (List.range (thresholdIndex + 1)).foldl
      (fun count i => count + counts.get (SEVERITY_LEVELS.getD i .info)) 0

/-- The process environment variables read by `ci.ts`.  A `none` field is an
unset variable; `some ""` is a set-but-empty variable (falsy in JS). -/
structure ProcessEnv where
  PENSAR_API_KEY : Option String := none
  PENSAR_PROJECT_ID : Option String := none
  GITHUB_REPOSITORY_ID : Option String := none
  PENSAR_ENVIRONMENT : Option String := none
  PENSAR_ERROR_SEVERITY_THRESHOLD : Option String := none
deriving Repr

/-- `getApiKeyEnvVar`: throws "PENSAR_API_KEY not configured" when the
variable is falsy (unset or empty), otherwise returns it. -/
def getApiKeyEnvVar (env : ProcessEnv) : Except String String :=
  match env.PENSAR_API_KEY with
  | none => .error "PENSAR_API_KEY not configured"
  | some k => if k = "" then .error "PENSAR_API_KEY not configured" else .ok k

/-- `getProjectIdEnvVar`: returns the variable as-is (possibly absent). -/
def getProjectIdEnvVar (env : ProcessEnv) : Option String :=
  env.PENSAR_PROJECT_ID

/-- Decimal value of a digit list, most significant first (the value
`parseInt` produces once the digit prefix is isolated). -/
def digitsVal (cs : List Char) : Nat :=
  cs.foldl (fun a c => a * 10 + (c.toNat - 48)) 0

/-- The value of the longest prefix of decimal digits, or `none` (NaN) when
there is no leading digit. -/
def leadingDigitsVal (cs : List Char) : Option Nat :=
  let ds := cs.takeWhile Char.isDigit
  if ds.isEmpty then none else some (digitsVal ds)

/-- JavaScript `parseInt(s, 10)`: skip leading whitespace, read an optional
sign and then the longest run of decimal digits; `none` models NaN.
(Float rounding of very long digit strings is not modelled.) -/
def jsParseInt10 (s : String) : Option Int :=
  match s.data.dropWhile Char.isWhitespace with
  | [] => none
  | c :: rest =>
    if c = '-' then (leadingDigitsVal rest).map (fun n => -(n : Int))
    else if c = '+' then (leadingDigitsVal rest).map (fun n => (n : Int))
    else (leadingDigitsVal (c :: rest)).map (fun n => (n : Int))

/-- `getRepoIdEnvVar`: absent or empty `GITHUB_REPOSITORY_ID` gives absent;
otherwise `parseInt(val, 10)`, with NaN mapped to absent. -/
def getRepoIdEnvVar (env : ProcessEnv) : Option Int :=
  match env.GITHUB_REPOSITORY_ID with
  | none => none
  | some val => if val = "" then none else jsParseInt10 val

/-- `getEnvironmentEnvVar`: the raw `PENSAR_ENVIRONMENT` string (the source
casts it to the `Environment` type without validation), `none` for unset. -/
def getEnvironmentEnvVar (env : ProcessEnv) : Option String :=
  env.PENSAR_ENVIRONMENT

/-- Char-wise lowercasing, modelling the source's `toLowerCase()` call
(identical on the ASCII inputs relevant here). -/
def toLowerString (s : String) : String :=
  String.mk (s.data.map Char.toLower)

/-- The warning emitted for an unrecognized severity threshold string; it
enumerates the valid values by joining `SEVERITY_LEVELS` with ", ". -/
def severityThresholdWarning (value : String) : String :=
  "Invalid severity threshold \"" ++ value ++ "\". Valid values: " ++
    String.intercalate ", " (SEVERITY_LEVELS.map SeverityLevel.name) ++
    ". Defaulting to \"critical\"."

/-- `getErrorSeverityThresholdEnvVar`: falsy input defaults to `critical`;
otherwise the input is lowercased and checked for membership in
`SEVERITY_LEVELS` (`find?` mirrors `includes` and recovers the level the
source's unchecked cast would produce); a non-member warns and defaults to
`critical`.  The second component collects the console warnings. -/
def getErrorSeverityThresholdEnvVar (env : ProcessEnv) :
    SeverityLevel × List String :=
  match env.PENSAR_ERROR_SEVERITY_THRESHOLD with
  | none => (.critical, [])
  | some value =>
    if value = "" then (.critical, [])
    else
      let normalized := toLowerString value
      match SEVERITY_LEVELS.find? (fun l => l.name == normalized) with
      | some lvl => (lvl, [])
      | none => (.critical, [severityThresholdWarning value])

/-- `getApiUrl`: maps the environment selector string to a base URL,
returning the warnings printed along the way.  The selector is a raw
string at runtime (the source switches on it), so anything other than
`"dev"`/`"staging"` falls into the production default. -/
def getApiUrl : Option String → String × List String
  | some "dev" =>
    ("https://josh-pensar-api.pensar.dev", ["Using dev environment"])
  | some "staging" =>
    ("https://staging-api.pensar.dev", ["Using staging environment"])
  | _ => ("https://api.pensar.dev", [])

/-- Scan depth selector (`"priority" | "full"`). -/
inductive ScanLevel
  | priority
  | full
deriving DecidableEq, Repr

/-- JS truthiness of a `string | undefined` value: `undefined` and `""` are
falsy. -/
def jsTruthyStr : Option String → Bool
  | none => false
  | some s => !(s == "")

/-- JS truthiness of a `number | undefined` value: `undefined` and `0` are
falsy. -/
def jsTruthyInt : Option Int → Bool
  | none => false
  | some n => !(n == 0)

/-- Parameters of `dispatchScan`. -/
structure DispatchScanParams where
  apiKey : String
  projectId : Option String := none
  repoId : Option Int := none
  branch : Option String := none
  scanLevel : Option ScanLevel := none
  environment : Option String := none
deriving Repr

/-- The configuration error thrown by `dispatchScan` when both identifiers
are falsy. -/
def dispatchMissingIdError : String :=
  "Either projectId or repoId must be provided. Set PENSAR_PROJECT_ID or run in a GitHub Actions environment (GITHUB_REPOSITORY_ID)."

/-- The POST request `dispatchScan` issues to the `/ci/dispatch` endpoint:
URL, API-key header, and the JSON body fields. -/
structure DispatchRequest where
  url : String
  apiKey : String
  bodyProjectId : Option String := none
  bodyRepoId : Option Int := none
  branch : Option String := none
  scanLevel : Option ScanLevel := none
deriving Repr

/-- Abstraction of the HTTP response to a dispatch request: transport status
plus the JSON fields the client inspects (a `none` field is missing from
the payload and fails the zod schema). -/
structure DispatchHttpResponse where
  ok : Bool
  statusText : String := ""
  error : Option String := none
  scanId : Option String := none
  label : Option String := none
  status : Option String := none
deriving Repr

/-- `json.error || resp.statusText`: the server error string unless it is
absent or empty. -/
def jsOrElse (o : Option String) (d : String) : String :=
  match o with
  | some s => if s = "" then d else s
  | none => d

/-- Result of a successful dispatch (`{scanId, label}`). -/
structure DispatchResult where
  scanId : String
  label : String
deriving DecidableEq, Repr

/-- Message for a payload failing `DispatchScanResponseObject.parse` (the
zod error text itself is not modelled). -/
def dispatchSchemaError : String := "Malformed dispatch response"

/-- Response handling of `dispatchScan`: a non-ok transport result fails
with the server message or status text; an ok response must carry `scanId`,
`label` and `status` to satisfy the schema. -/
def parseDispatchResponse (r : DispatchHttpResponse) :
    Except String DispatchResult :=
  if !r.ok then
    .error ("Error dispatching pentest: " ++ jsOrElse r.error r.statusText)
  else
    match r.scanId, r.label, r.status with
    | some s, some l, some _ => .ok { scanId := s, label := l }
    | _, _, _ => .error dispatchSchemaError

/-- `dispatchScan`: fails with a configuration error before any request when
both identifiers are falsy; otherwise issues one POST to
`{apiUrl}/ci/dispatch`, the body carrying `projectId` when truthy and
`repoId` otherwise.  The second component lists the requests issued;
`server` abstracts the network. -/
def dispatchScan (params : DispatchScanParams)
    (server : DispatchRequest → DispatchHttpResponse) :
    Except String DispatchResult × List DispatchRequest :=
  if !jsTruthyStr params.projectId && !jsTruthyInt params.repoId then
    (.error dispatchMissingIdError, [])
  else
    let apiUrl := (getApiUrl params.environment).1
    let req : DispatchRequest :=
      { url := apiUrl ++ "/ci/dispatch"
        apiKey := params.apiKey
        bodyProjectId :=
          if jsTruthyStr params.projectId then params.projectId else none
        bodyRepoId :=
          if jsTruthyStr params.projectId then none else params.repoId
        branch := params.branch
        scanLevel := params.scanLevel }
    (parseDispatchResponse (server req), [req])

/-- The scan status enumeration. -/
inductive ScanState
  | queued
  | running
  | completed
  | failed
  | paused
deriving DecidableEq, Repr

/-- Whether a state ends the polling loop. -/
def ScanState.isTerminal : ScanState → Bool
  | .completed => true
  | .failed => true
  | .paused => true
  | _ => false

/-- A parsed `/ci/status` record (`ScanStatusResponseObject`). -/
structure ScanStatus where
  scanId : String
  label : String
  status : ScanState
  startedAt : Option String := none
  completedAt : Option String := none
  errorMessage : Option String := none
  issuesCount : Nat := 0
  issueCountsBySeverity : Option IssueCountsBySeverity := none
  reportReady : Bool := false
deriving DecidableEq, Repr

/-- Rendering of the nullable `errorMessage` inside the failure template
literal (JS prints `null` as "null"). -/
def renderErrorMessage : Option String → String
  | some m => m
  | none => "null"

/-- Trace of one run of the polling loop: final outcome (`none` when the
finite response sequence was exhausted without a terminal state, i.e. the
real loop would still be polling), the observer callbacks in order, the
number of status requests issued, and the total sleep time. -/
structure PollResult where
  outcome : Option (Except String ScanStatus)
  observed : List ScanStatus
  requests : Nat
  sleptMs : Nat
deriving Repr

/-- The `while (true)` body of `pollScanStatus`, consuming the successive
parsed status responses: each iteration issues one request, delivers the
record to the observer, then checks `failed`, `completed`, `paused` in the
source's order, sleeping `pollIntervalMs` before the next iteration. -/
def pollScanStatusGo (pollIntervalMs : Nat) : List ScanStatus → PollResult
  | [] => { outcome := none, observed := [], requests := 0, sleptMs := 0 }
  | status :: rest =>
    if status.status = .failed then
      { outcome := some (.error
          ("Pentest failed: " ++ renderErrorMessage status.errorMessage))
        observed := [status], requests := 1, sleptMs := 0 }
    else if status.status = .completed then
      { outcome := some (.ok status)
        observed := [status], requests := 1, sleptMs := 0 }
    else if status.status = .paused then
      { outcome := some (.error "Pentest was paused")
        observed := [status], requests := 1, sleptMs := 0 }
    else
      let r := pollScanStatusGo pollIntervalMs rest
      { outcome := r.outcome
        observed := status :: r.observed
        requests := r.requests + 1
        sleptMs := r.sleptMs + pollIntervalMs }

/-- `pollScanStatus`: the poll interval defaults to 5000 ms. -/
def pollScanStatus (pollIntervalMsOpt : Option Nat)
    (responses : List ScanStatus) : PollResult :=
  pollScanStatusGo (pollIntervalMsOpt.getD 5000) responses

/-- Parameters of `runScan` (all optional, falling back to the process
environment). -/
structure RunScanParams where
  apiKey : Option String := none
  projectId : Option String := none
  repoId : Option Int := none
  branch : Option String := none
  scanLevel : Option ScanLevel := none
  environment : Option String := none
  wait : Option Bool := none
  pollIntervalMs : Option Nat := none
  errorSeverityThreshold : Option SeverityLevel := none
deriving Repr

/-- `params.apiKey ?? getApiKeyEnvVar()` (the env getter, which can throw,
runs only when the explicit argument is absent). -/
def resolveApiKey (params : RunScanParams) (env : ProcessEnv) :
    Except String String :=
  match params.apiKey with
  | some k => .ok k
  | none => getApiKeyEnvVar env

/-- `params.projectId ?? getProjectIdEnvVar()`. -/
def resolveProjectId (params : RunScanParams) (env : ProcessEnv) :
    Option String :=
  match params.projectId with
  | some p => some p
  | none => getProjectIdEnvVar env

/-- `params.repoId ?? getRepoIdEnvVar()`. -/
def resolveRepoId (params : RunScanParams) (env : ProcessEnv) : Option Int :=
  match params.repoId with
  | some r => some r
  | none => getRepoIdEnvVar env

/-- `params.environment ?? getEnvironmentEnvVar()`. -/
def resolveEnvironment (params : RunScanParams) (env : ProcessEnv) :
    Option String :=
  match params.environment with
  | some e => some e
  | none => getEnvironmentEnvVar env

/-- The configuration error thrown by `runScan` when no identifier
resolves to a truthy value. -/
def runScanMissingIdError : String :=
  "No project identifier found. Either set PENSAR_PROJECT_ID, pass --project, or run in a GitHub Actions environment (GITHUB_REPOSITORY_ID is auto-detected)."

/-- The `DispatchScanParams` that `runScan` passes to `dispatchScan`. -/
def runDispatchParams (params : RunScanParams) (env : ProcessEnv)
    (apiKey : String) : DispatchScanParams :=
  { apiKey := apiKey
    projectId := resolveProjectId params env
    repoId := resolveRepoId params env
    branch := params.branch
    scanLevel := params.scanLevel
    environment := resolveEnvironment params env }

/-- Network activity of one `runScan` invocation. -/
structure RunTrace where
  dispatchRequests : List DispatchRequest
  statusRequests : Nat
deriving Repr

/-- `runScan`: resolve configuration, fail fast when no identifier is
truthy, dispatch, and either synthesize a `queued` record (`wait` false)
or poll to a terminal state.  The outcome is `none` when the finite status
sequence ends before a terminal state (the real loop would still be
polling). -/
def runScan (params : RunScanParams) (env : ProcessEnv)
    (server : DispatchRequest → DispatchHttpResponse)
    (statusResponses : List ScanStatus) :
    Option (Except String ScanStatus) × RunTrace :=
  match resolveApiKey params env with
  | .error e =>
    (some (.error e), { dispatchRequests := [], statusRequests := 0 })
  | .ok apiKey =>
    let projectId := resolveProjectId params env
    let repoId := resolveRepoId params env
    let wait := params.wait.getD true
    if !jsTruthyStr projectId && !jsTruthyInt repoId then
      (some (.error runScanMissingIdError),
        { dispatchRequests := [], statusRequests := 0 })
    else
      let d := dispatchScan (runDispatchParams params env apiKey) server
      match d.1 with
      | .error e =>
        (some (.error e), { dispatchRequests := d.2, statusRequests := 0 })
      | .ok result =>
        if !wait then
          (some (.ok
            { scanId := result.scanId
              label := result.label
              status := .queued
              startedAt := none
              completedAt := none
              errorMessage := none
              issuesCount := 0
              issueCountsBySeverity := none
              reportReady := false }),
            { dispatchRequests := d.2, statusRequests := 0 })
        else
          let pr := pollScanStatus params.pollIntervalMs statusResponses
          (pr.outcome,
            { dispatchRequests := d.2, statusRequests := pr.requests })

/-- A running (non-terminal) status record used for concrete instances. -/
def runningSample : ScanStatus :=
  { scanId := "scan-1", label := "L", status := .running }

/-- A completed status record used for concrete instances. -/
def completedSample : ScanStatus :=
  { scanId := "scan-1", label := "L", status := .completed,
    completedAt := some "2026-01-01T00:05:00Z", issuesCount := 1,
    reportReady := true }

/-- A failed status record used for concrete instances. -/
def failedSample : ScanStatus :=
  { scanId := "scan-1", label := "L", status := .failed,
    errorMessage := some "Out of memory" }

/-- A paused status record used for concrete instances. -/
def pausedSample : ScanStatus :=
  { scanId := "scan-1", label := "L", status := .paused }

/-- A dispatch server oracle that accepts every request. -/
def sampleServer : DispatchRequest → DispatchHttpResponse :=
  fun _ =>
    { ok := true, scanId := some "s1", label := some "L",
      status := some "queued" }

/-- `runScan` parameters with `wait = false` and an explicit identifier. -/
def sampleNoWaitParams : RunScanParams :=
  { apiKey := some "k", projectId := some "p", wait := some false }

end PensarCI

namespace PensarCI

lemma severityIndex_eval :
    severityIndex .critical = 0 ∧ severityIndex .high = 1 ∧
    severityIndex .medium = 2 ∧ severityIndex .low = 3 ∧
    severityIndex .info = 4 := by
  decide

lemma getIssueCount_some_closed (b : IssueCountsBySeverity) :
    getIssueCountAtOrAboveThreshold (some b) .critical = b.critical ∧
    getIssueCountAtOrAboveThreshold (some b) .high = b.critical + b.high ∧
    getIssueCountAtOrAboveThreshold (some b) .medium
      = b.critical + b.high + b.medium ∧
    getIssueCountAtOrAboveThreshold (some b) .low
      = b.critical + b.high + b.medium + b.low ∧
    getIssueCountAtOrAboveThreshold (some b) .info
      = b.critical + b.high + b.medium + b.low + b.info := by
  refine ⟨?_, ?_, ?_, ?_, ?_⟩ <;>
    simp [getIssueCountAtOrAboveThreshold, severityIndex, SEVERITY_LEVELS,
      List.range_succ, IssueCountsBySeverity.get]

/-- Claim C1: `getIssueCountAtOrAboveThreshold` sums the per-severity counts
from the most severe level down to and including the threshold level along
the fixed ordering critical > high > medium > low > info, returns 0 for a
missing breakdown, and on the breakdown `{critical:1, high:2, medium:3,
low:0, info:0}` gives 3 at threshold `high`, 6 at threshold `info`, and 0
for an undefined breakdown at every threshold. -/
theorem claim_C1_count_at_or_above_threshold :
    (∀ b : IssueCountsBySeverity,
      getIssueCountAtOrAboveThreshold (some b) .critical = b.critical ∧
      getIssueCountAtOrAboveThreshold (some b) .high = b.critical + b.high ∧
      getIssueCountAtOrAboveThreshold (some b) .medium
        = b.critical + b.high + b.medium ∧
      getIssueCountAtOrAboveThreshold (some b) .low
        = b.critical + b.high + b.medium + b.low ∧
      getIssueCountAtOrAboveThreshold (some b) .info
        = b.critical + b.high + b.medium + b.low + b.info) ∧
    (∀ t : SeverityLevel, getIssueCountAtOrAboveThreshold none t = 0) ∧
    getIssueCountAtOrAboveThreshold
      (some { critical := 1, high := 2, medium := 3, low := 0, info := 0 })
      .high = 3 ∧
    getIssueCountAtOrAboveThreshold
      (some { critical := 1, high := 2, medium := 3, low := 0, info := 0 })
      .info = 6 := by
  exact ⟨fun b => getIssueCount_some_closed b, fun t => rfl, by decide, by decide⟩

lemma isDigit_not_whitespace (c : Char) (h : c.isDigit = true) :
    c.isWhitespace = false := by
  simp [Char.isDigit] at h
  obtain ⟨h1, h2⟩ := h
  simp [Char.isWhitespace]
  refine ⟨⟨⟨?_, ?_⟩, ?_⟩, ?_⟩ <;> rintro rfl <;> revert h1 <;> decide

lemma isDigit_ne_minus (c : Char) (h : c.isDigit = true) : c ≠ '-' := by
  rintro rfl; simp [Char.isDigit] at h

lemma isDigit_ne_plus (c : Char) (h : c.isDigit = true) : c ≠ '+' := by
  rintro rfl; simp [Char.isDigit] at h

lemma takeWhile_eq_self_of_all {p : α → Bool} {l : List α}
    (h : ∀ a ∈ l, p a = true) : l.takeWhile p = l := by
  induction l with
  | nil => rfl
  | cons a l ih =>
    rw [List.takeWhile_cons_of_pos (h a (by simp))]
    rw [ih (fun a ha => h a (by simp [ha]))]

lemma takeWhile_eq_nil_of_none {p : α → Bool} {l : List α}
    (h : ∀ a ∈ l, p a = false) : l.takeWhile p = [] := by
  cases l with
  | nil => rfl
  | cons a l => exact List.takeWhile_cons_of_neg (by simp [h a (by simp)])

/-- Claim C9: for a fully populated breakdown the count is monotone
non-decreasing as the threshold moves from more severe to less severe
along the fixed ordering (measured by `severityIndex`), and at threshold
`info` it equals the sum of all five per-severity counts. -/
theorem claim_C9_count_monotone_in_threshold :
    (∀ (b : IssueCountsBySeverity) (t u : SeverityLevel),
      severityIndex t ≤ severityIndex u →
      getIssueCountAtOrAboveThreshold (some b) t
        ≤ getIssueCountAtOrAboveThreshold (some b) u) ∧
    (∀ b : IssueCountsBySeverity,
      getIssueCountAtOrAboveThreshold (some b) .info
        = b.critical + b.high + b.medium + b.low + b.info) := by
  constructor
  · intro b t u h
    obtain ⟨e1, e2, e3, e4, e5⟩ := severityIndex_eval
    obtain ⟨c1, c2, c3, c4, c5⟩ := getIssueCount_some_closed b
    cases t <;> cases u <;> simp_all <;> omega
  · intro b
    exact (getIssueCount_some_closed b).2.2.2.2

/-- Witness for C9: instantiated at a concrete breakdown with thresholds
`high` and `low`. -/
theorem claim_C9_count_monotone_in_threshold_witness :
    severityIndex .high ≤ severityIndex .low ∧
    getIssueCountAtOrAboveThreshold
      (some { critical := 1, high := 2, medium := 3, low := 4, info := 5 })
      .high
      ≤ getIssueCountAtOrAboveThreshold
        (some { critical := 1, high := 2, medium := 3, low := 4, info := 5 })
        .low :=
  ⟨by decide,
    claim_C9_count_monotone_in_threshold.1
      { critical := 1, high := 2, medium := 3, low := 4, info := 5 }
      .high .low (by decide)⟩

lemma infix_append_right {α : Type} {x b : List α} (a : List α)
    (h : x <:+: b) : x <:+: a ++ b :=
  h.trans (by simpa using List.infix_append a b [])

lemma infix_append_left {α : Type} {x a : List α} (b : List α)
    (h : x <:+: a) : x <:+: a ++ b :=
  h.trans (by simpa using List.infix_append [] a b)

/-- Claim C4: endpoint resolution maps `dev`, `staging`, `production` and the
absent selector to fixed URLs; `absent` and `production` agree and emit no
warning, while `dev` and `staging` map to distinct hosts and each emits one
advisory warning line. -/
theorem claim_C4_api_url_resolution :
    getApiUrl (some "dev")
      = ("https://josh-pensar-api.pensar.dev", ["Using dev environment"]) ∧
    getApiUrl (some "staging")
      = ("https://staging-api.pensar.dev", ["Using staging environment"]) ∧
    getApiUrl (some "production") = ("https://api.pensar.dev", []) ∧
    getApiUrl none = getApiUrl (some "production") ∧
    (getApiUrl (some "dev")).1 ≠ (getApiUrl (some "staging")).1 ∧
    (getApiUrl (some "dev")).2.length = 1 ∧
    (getApiUrl (some "staging")).2.length = 1 ∧
    (getApiUrl (some "production")).2 = [] ∧
    (getApiUrl none).2 = [] :=
  ⟨rfl, rfl, rfl, rfl, by decide, rfl, rfl, rfl, rfl⟩

/-- Claim C7: the severity threshold is parsed case-insensitively; absent or
empty input yields the default `critical` silently; input whose lowercasing
names a severity level yields that level silently; any other input yields
`critical` together with one warning, and that warning enumerates every
valid severity name.  The function is total, so it never throws. -/
theorem claim_C7_severity_threshold_parsing :
    (∀ env : ProcessEnv, env.PENSAR_ERROR_SEVERITY_THRESHOLD = none →
      getErrorSeverityThresholdEnvVar env = (.critical, [])) ∧
    (∀ env : ProcessEnv, env.PENSAR_ERROR_SEVERITY_THRESHOLD = some "" →
      getErrorSeverityThresholdEnvVar env = (.critical, [])) ∧
    (∀ (env : ProcessEnv) (value : String) (lvl : SeverityLevel),
      env.PENSAR_ERROR_SEVERITY_THRESHOLD = some value → value ≠ "" →
      toLowerString value = lvl.name →
      getErrorSeverityThresholdEnvVar env = (lvl, [])) ∧
    (∀ (env : ProcessEnv) (value : String),
      env.PENSAR_ERROR_SEVERITY_THRESHOLD = some value → value ≠ "" →
      (∀ lvl : SeverityLevel, toLowerString value ≠ lvl.name) →
      getErrorSeverityThresholdEnvVar env
        = (.critical, [severityThresholdWarning value])) ∧
    (∀ (value : String) (lvl : SeverityLevel),
      lvl.name.data <:+: (severityThresholdWarning value).data) := by
  refine ⟨?_, ?_, ?_, ?_, ?_⟩
  · intro env he
    simp [getErrorSeverityThresholdEnvVar, he]
  · intro env he
    simp [getErrorSeverityThresholdEnvVar, he]
  · intro env value lvl he hne hlow
    simp only [getErrorSeverityThresholdEnvVar, he]
    rw [if_neg hne, hlow]
    cases lvl <;> rfl
  · intro env value he hne hnone
    simp only [getErrorSeverityThresholdEnvVar, he]
    rw [if_neg hne]
    have hfind : SEVERITY_LEVELS.find? (fun l => l.name == toLowerString value)
        = none := by
      refine List.find?_eq_none.mpr (fun l _ => ?_)
      simp only [beq_iff_eq]
      exact fun h => hnone l h.symm
    rw [hfind]
  · intro value lvl
    unfold severityThresholdWarning
    simp only [String.data_append]
    refine infix_append_left _ (infix_append_right _ ?_)
    cases lvl <;> decide

/-- Witness for C7: an uppercase valid value parses to its level with no
warning; an unrecognized value warns and defaults to `critical`. -/
theorem claim_C7_severity_threshold_parsing_witness :
    getErrorSeverityThresholdEnvVar
      { PENSAR_ERROR_SEVERITY_THRESHOLD := some "HIGH" } = (.high, []) ∧
    getErrorSeverityThresholdEnvVar
      { PENSAR_ERROR_SEVERITY_THRESHOLD := some "banana" }
      = (.critical, [severityThresholdWarning "banana"]) :=
  ⟨claim_C7_severity_threshold_parsing.2.2.1 _ "HIGH" .high rfl (by decide)
      (by decide),
    claim_C7_severity_threshold_parsing.2.2.2.1 _ "banana" rfl (by decide)
      (by decide)⟩

lemma jsParseInt10_all_digits (s : String) (hne : s ≠ "")
    (hdig : ∀ c ∈ s.data, c.isDigit = true) :
    jsParseInt10 s = some ((digitsVal s.data : Int)) := by
  cases hd : s.data with
  | nil =>
    exact absurd (by cases s; simp_all) hne
  | cons c rest =>
    have hc : c.isDigit = true := hdig c (by rw [hd]; simp)
    unfold jsParseInt10
    rw [hd, List.dropWhile_cons_of_neg (by simp [isDigit_not_whitespace c hc])]
    simp only
    rw [if_neg (isDigit_ne_minus c hc), if_neg (isDigit_ne_plus c hc)]
    unfold leadingDigitsVal
    rw [takeWhile_eq_self_of_all (fun a ha => hdig a (by rw [hd]; exact ha))]
    simp

lemma jsParseInt10_no_digits (s : String)
    (hnd : ∀ c ∈ s.data, c.isDigit = false) :
    jsParseInt10 s = none := by
  have hsub : ∀ a ∈ s.data.dropWhile Char.isWhitespace, a.isDigit = false :=
    fun a ha => hnd a ((List.dropWhile_sublist _).mem ha)
  unfold jsParseInt10
  cases hl : s.data.dropWhile Char.isWhitespace with
  | nil => rfl
  | cons c rest =>
    have hrest : ∀ a ∈ rest, a.isDigit = false :=
      fun a ha => hsub a (by rw [hl]; simp [ha])
    have hcons : ∀ a ∈ c :: rest, a.isDigit = false :=
      fun a ha => hsub a (by rw [hl]; exact ha)
    simp only
    split_ifs <;>
      simp [leadingDigitsVal, takeWhile_eq_nil_of_none hrest,
        takeWhile_eq_nil_of_none hcons]

/-- Claim C8: `getRepoIdEnvVar` returns absent for an absent variable and for
a digit-free variable (never an error), and returns the parsed integer for
an all-digit variable. -/
theorem claim_C8_repo_id_parsing :
    (∀ env : ProcessEnv, env.GITHUB_REPOSITORY_ID = none →
      getRepoIdEnvVar env = none) ∧
    (∀ (env : ProcessEnv) (s : String),
      env.GITHUB_REPOSITORY_ID = some s → s ≠ "" →
      (∀ c ∈ s.data, c.isDigit = true) →
      getRepoIdEnvVar env = some ((digitsVal s.data : Int))) ∧
    (∀ (env : ProcessEnv) (s : String),
      env.GITHUB_REPOSITORY_ID = some s →
      (∀ c ∈ s.data, c.isDigit = false) →
      getRepoIdEnvVar env = none) := by
  refine ⟨?_, ?_, ?_⟩
  · intro env he
    simp [getRepoIdEnvVar, he]
  · intro env s he hne hdig
    simp only [getRepoIdEnvVar, he]
    rw [if_neg hne]
    exact jsParseInt10_all_digits s hne hdig
  · intro env s he hnd
    simp only [getRepoIdEnvVar, he]
    by_cases hse : s = ""
    · rw [if_pos hse]
    · rw [if_neg hse]
      exact jsParseInt10_no_digits s hnd

/-- Witness for C8: a numeric value parses, a non-numeric value and an
absent variable give absent. -/
theorem claim_C8_repo_id_parsing_witness :
    getRepoIdEnvVar { GITHUB_REPOSITORY_ID := some "12345" } = some 12345 ∧
    getRepoIdEnvVar { GITHUB_REPOSITORY_ID := some "abc" } = none ∧
    getRepoIdEnvVar ({} : ProcessEnv) = none :=
  ⟨by
      rw [claim_C8_repo_id_parsing.2.1 _ "12345" rfl (by decide) (by decide)]
      decide,
    claim_C8_repo_id_parsing.2.2 _ "abc" rfl (by decide),
    claim_C8_repo_id_parsing.1 _ rfl⟩

lemma pollGo_cons_failed (interval : Nat) (s : ScanStatus)
    (rest : List ScanStatus) (h : s.status = .failed) :
    pollScanStatusGo interval (s :: rest)
      = { outcome := some (.error
            ("Pentest failed: " ++ renderErrorMessage s.errorMessage))
          observed := [s], requests := 1, sleptMs := 0 } := by
  simp [pollScanStatusGo, h]

lemma pollGo_cons_completed (interval : Nat) (s : ScanStatus)
    (rest : List ScanStatus) (h : s.status = .completed) :
    pollScanStatusGo interval (s :: rest)
      = { outcome := some (.ok s)
          observed := [s], requests := 1, sleptMs := 0 } := by
  simp [pollScanStatusGo, h]

lemma pollGo_cons_paused (interval : Nat) (s : ScanStatus)
    (rest : List ScanStatus) (h : s.status = .paused) :
    pollScanStatusGo interval (s :: rest)
      = { outcome := some (.error "Pentest was paused")
          observed := [s], requests := 1, sleptMs := 0 } := by
  simp [pollScanStatusGo, h]

lemma pollGo_cons_nonterminal (interval : Nat) (s : ScanStatus)
    (rest : List ScanStatus) (h : s.status.isTerminal = false) :
    pollScanStatusGo interval (s :: rest)
      = { outcome := (pollScanStatusGo interval rest).outcome
          observed := s :: (pollScanStatusGo interval rest).observed
          requests := (pollScanStatusGo interval rest).requests + 1
          sleptMs := (pollScanStatusGo interval rest).sleptMs + interval } := by
  have h1 : s.status ≠ .failed := by
    intro e; rw [e] at h; simp [ScanState.isTerminal] at h
  have h2 : s.status ≠ .completed := by
    intro e; rw [e] at h; simp [ScanState.isTerminal] at h
  have h3 : s.status ≠ .paused := by
    intro e; rw [e] at h; simp [ScanState.isTerminal] at h
  simp [pollScanStatusGo, h1, h2, h3]

lemma pollGo_append (interval : Nat) (pre tail : List ScanStatus)
    (hpre : ∀ t ∈ pre, t.status.isTerminal = false) :
    pollScanStatusGo interval (pre ++ tail)
      = { outcome := (pollScanStatusGo interval tail).outcome
          observed := pre ++ (pollScanStatusGo interval tail).observed
          requests := (pollScanStatusGo interval tail).requests + pre.length
          sleptMs :=
            (pollScanStatusGo interval tail).sleptMs
              + pre.length * interval } := by
  induction pre with
  | nil => simp
  | cons t pre ih =>
    have ht := hpre t (by simp)
    rw [List.cons_append, pollGo_cons_nonterminal _ _ _ ht,
      ih (fun a ha => hpre a (by simp [ha]))]
    simp [PollResult.mk.injEq]
    constructor
    · omega
    · ring

/-- Claim C2: in the polling loop, a `completed` status stops polling and is
returned unmodified; a `failed` status stops polling and fails with an
error embedding the record's `errorMessage`; a `paused` status stops
polling and fails with the distinct pause error.  In every terminal case
the number of requests issued is the number of statuses up to and
including the terminal one, whatever responses would follow: no further
status request is issued. -/
theorem claim_C2_poll_terminal_behaviour :
    ∀ (interval : Nat) (pre : List ScanStatus) (s : ScanStatus)
      (rest : List ScanStatus),
      (∀ t ∈ pre, t.status.isTerminal = false) →
      ((s.status = .completed →
        pollScanStatusGo interval (pre ++ s :: rest)
          = { outcome := some (.ok s), observed := pre ++ [s],
              requests := pre.length + 1, sleptMs := pre.length * interval }) ∧
       (s.status = .failed →
        pollScanStatusGo interval (pre ++ s :: rest)
          = { outcome := some (.error
                ("Pentest failed: " ++ renderErrorMessage s.errorMessage)),
              observed := pre ++ [s],
              requests := pre.length + 1, sleptMs := pre.length * interval }) ∧
       (s.status = .paused →
        pollScanStatusGo interval (pre ++ s :: rest)
          = { outcome := some (.error "Pentest was paused"),
              observed := pre ++ [s],
              requests := pre.length + 1, sleptMs := pre.length * interval })) := by
  intro interval pre s rest hpre
  refine ⟨fun h => ?_, fun h => ?_, fun h => ?_⟩
  · rw [pollGo_append interval pre (s :: rest) hpre,
      pollGo_cons_completed interval s rest h]
    simp [PollResult.mk.injEq]
    omega
  · rw [pollGo_append interval pre (s :: rest) hpre,
      pollGo_cons_failed interval s rest h]
    simp [PollResult.mk.injEq]
    omega
  · rw [pollGo_append interval pre (s :: rest) hpre,
      pollGo_cons_paused interval s rest h]
    simp [PollResult.mk.injEq]
    omega

/-- Witness for C2: after one running status, a completed status ends the
poll with that record even though further responses are available, a
failed status fails with its error message, and a paused status fails with
the pause error. -/
theorem claim_C2_poll_terminal_behaviour_witness :
    pollScanStatusGo 100 ([runningSample] ++ completedSample :: [runningSample])
      = { outcome := some (.ok completedSample),
          observed := [runningSample] ++ [completedSample],
          requests := 2, sleptMs := 100 } ∧
    pollScanStatusGo 100 ([] ++ failedSample :: [runningSample])
      = { outcome := some (.error "Pentest failed: Out of memory"),
          observed := [] ++ [failedSample],
          requests := 1, sleptMs := 0 } ∧
    pollScanStatusGo 100 ([] ++ pausedSample :: [runningSample])
      = { outcome := some (.error "Pentest was paused"),
          observed := [] ++ [pausedSample],
          requests := 1, sleptMs := 0 } := by
  refine ⟨?_, ?_, ?_⟩
  · have h := claim_C2_poll_terminal_behaviour 100 [runningSample]
      completedSample [runningSample] (by decide)
    simpa using h.1 rfl
  · have h := claim_C2_poll_terminal_behaviour 100 []
      failedSample [runningSample] (by decide)
    simpa [failedSample, renderErrorMessage] using h.2.1 rfl
  · have h := claim_C2_poll_terminal_behaviour 100 []
      pausedSample [runningSample] (by decide)
    simpa using h.2.2 rfl

/-- Claim C3: for a response sequence whose earlier elements are
non-terminal and whose last element is terminal, the observer receives
exactly the observed statuses, once each, in order, and the loop reaches
an outcome; in particular `[running, running, completed]` produces exactly
the three callbacks in order, returns the third record, and sleeps
`2 * interval` in total. -/
theorem claim_C3_poll_observer_order :
    (∀ (interval : Nat) (pre : List ScanStatus) (s : ScanStatus),
      (∀ t ∈ pre, t.status.isTerminal = false) →
      s.status.isTerminal = true →
      (pollScanStatusGo interval (pre ++ [s])).observed = pre ++ [s] ∧
      (pollScanStatusGo interval (pre ++ [s])).requests = pre.length + 1 ∧
      (pollScanStatusGo interval (pre ++ [s])).outcome ≠ none) ∧
    (∀ (interval : Nat) (s1 s2 s3 : ScanStatus),
      s1.status = .running → s2.status = .running → s3.status = .completed →
      (pollScanStatusGo interval [s1, s2, s3]).observed = [s1, s2, s3] ∧
      (pollScanStatusGo interval [s1, s2, s3]).outcome = some (.ok s3) ∧
      (pollScanStatusGo interval [s1, s2, s3]).sleptMs = 2 * interval) := by
  constructor
  · intro interval pre s hpre hterm
    rw [pollGo_append interval pre [s] hpre]
    cases hs : s.status
    · rw [hs] at hterm; simp [ScanState.isTerminal] at hterm
    · rw [hs] at hterm; simp [ScanState.isTerminal] at hterm
    · rw [pollGo_cons_completed interval s [] hs]; simp; omega
    · rw [pollGo_cons_failed interval s [] hs]; simp; omega
    · rw [pollGo_cons_paused interval s [] hs]; simp; omega
  · intro interval s1 s2 s3 h1 h2 h3
    have t1 : s1.status.isTerminal = false := by
      rw [h1]; rfl
    have t2 : s2.status.isTerminal = false := by
      rw [h2]; rfl
    rw [show [s1, s2, s3] = s1 :: s2 :: s3 :: [] from rfl,
      pollGo_cons_nonterminal interval s1 _ t1,
      pollGo_cons_nonterminal interval s2 _ t2,
      pollGo_cons_completed interval s3 [] h3]
    refine ⟨rfl, rfl, ?_⟩
    simp
    ring

/-- Witness for C3: the concrete sequence `[running, running, completed]`
at interval 100. -/
theorem claim_C3_poll_observer_order_witness :
    (pollScanStatusGo 100 [runningSample, runningSample, completedSample]).observed
      = [runningSample, runningSample, completedSample] ∧
    (pollScanStatusGo 100 [runningSample, runningSample, completedSample]).outcome
      = some (.ok completedSample) ∧
    (pollScanStatusGo 100 [runningSample, runningSample, completedSample]).sleptMs
      = 2 * 100 :=
  claim_C3_poll_observer_order.2 100 runningSample runningSample
    completedSample rfl rfl rfl

/-- Claim C5: `dispatchScan` with neither identifier resolvable (both falsy)
fails with the configuration error and issues zero requests, for every
server. -/
theorem claim_C5_dispatch_requires_identifier :
    ∀ (params : DispatchScanParams)
      (server : DispatchRequest → DispatchHttpResponse),
      jsTruthyStr params.projectId = false →
      jsTruthyInt params.repoId = false →
      dispatchScan params server = (.error dispatchMissingIdError, []) := by
  intro params server h1 h2
  simp [dispatchScan, h1, h2]

/-- Witness for C5: both identifiers absent. -/
theorem claim_C5_dispatch_requires_identifier_witness :
    dispatchScan { apiKey := "k" } (fun _ => { ok := false })
      = (.error dispatchMissingIdError, []) :=
  claim_C5_dispatch_requires_identifier { apiKey := "k" }
    (fun _ => { ok := false }) rfl rfl

lemma dispatchScan_one_request (p : DispatchScanParams)
    (server : DispatchRequest → DispatchHttpResponse)
    (h : (!jsTruthyStr p.projectId && !jsTruthyInt p.repoId) = false) :
    (dispatchScan p server).2.length = 1 := by
  simp [dispatchScan, h]

/-- Claim C6: `runScan` with `wait = false`, once the API key and a truthy
identifier resolve and the dispatch succeeds, issues exactly one dispatch
request and zero status requests, and returns a synthesized record with
the dispatched `scanId` and `label`, status `queued`, and every progress
field at its zero/null default. -/
theorem claim_C6_run_scan_no_wait :
    ∀ (params : RunScanParams) (env : ProcessEnv)
      (server : DispatchRequest → DispatchHttpResponse)
      (statuses : List ScanStatus) (k : String) (r : DispatchResult),
      params.wait = some false →
      resolveApiKey params env = .ok k →
      (jsTruthyStr (resolveProjectId params env) = true ∨
        jsTruthyInt (resolveRepoId params env) = true) →
      (dispatchScan (runDispatchParams params env k) server).1 = .ok r →
      runScan params env server statuses
        = (some (.ok
            { scanId := r.scanId, label := r.label, status := .queued,
              startedAt := none, completedAt := none, errorMessage := none,
              issuesCount := 0, issueCountsBySeverity := none,
              reportReady := false }),
          { dispatchRequests :=
              (dispatchScan (runDispatchParams params env k) server).2,
            statusRequests := 0 }) ∧
      (dispatchScan (runDispatchParams params env k) server).2.length
        = 1 := by
  intro params env server statuses k r hw hk hid hd
  have hguard : (!jsTruthyStr (resolveProjectId params env)
      && !jsTruthyInt (resolveRepoId params env)) = false := by
    rcases hid with h | h <;> simp [h]
  constructor
  · simp only [runScan, hk, hguard, hw, hd]
    simp
  · exact dispatchScan_one_request _ server hguard

/-- Witness for C6: concrete no-wait run against an accepting server. -/
theorem claim_C6_run_scan_no_wait_witness :
    runScan sampleNoWaitParams {} sampleServer []
      = (some (.ok
          { scanId := "s1", label := "L", status := .queued,
            startedAt := none, completedAt := none, errorMessage := none,
            issuesCount := 0, issueCountsBySeverity := none,
            reportReady := false }),
        { dispatchRequests :=
            (dispatchScan (runDispatchParams sampleNoWaitParams {} "k")
              sampleServer).2,
          statusRequests := 0 }) ∧
    (dispatchScan (runDispatchParams sampleNoWaitParams {} "k")
        sampleServer).2.length = 1 :=
  claim_C6_run_scan_no_wait sampleNoWaitParams {} sampleServer [] "k"
    { scanId := "s1", label := "L" } rfl rfl (Or.inl rfl) rfl

/-- Claim C10: `dispatchScan` and `runScan` treat falsy identifiers as
absent — `repoId = 0` with no project id, or `projectId = ""` with no repo
id, hit the missing-identifier configuration error, with zero network
requests, even though a value was explicitly supplied. -/
theorem claim_C10_falsy_identifiers_treated_as_absent :
    ∀ (k : String) (br : Option String) (sl : Option ScanLevel)
      (e : Option String)
      (server : DispatchRequest → DispatchHttpResponse)
      (statuses : List ScanStatus),
      dispatchScan
          { apiKey := k, projectId := none, repoId := some 0, branch := br,
            scanLevel := sl, environment := e } server
        = (.error dispatchMissingIdError, []) ∧
      dispatchScan
          { apiKey := k, projectId := some "", repoId := none, branch := br,
            scanLevel := sl, environment := e } server
        = (.error dispatchMissingIdError, []) ∧
      runScan
          { apiKey := some k, projectId := none, repoId := some 0,
            branch := br, scanLevel := sl, environment := e } {} server
          statuses
        = (some (.error runScanMissingIdError),
          { dispatchRequests := [], statusRequests := 0 }) ∧
      runScan
          { apiKey := some k, projectId := some "", repoId := none,
            branch := br, scanLevel := sl, environment := e } {} server
          statuses
        = (some (.error runScanMissingIdError),
          { dispatchRequests := [], statusRequests := 0 }) := by
  intro k br sl e server statuses
  refine ⟨?_, ?_, ?_, ?_⟩ <;>
    simp [dispatchScan, runScan, resolveApiKey, resolveProjectId,
      resolveRepoId, getProjectIdEnvVar, getRepoIdEnvVar, jsTruthyStr,
      jsTruthyInt]

end PensarCI
